import Mathlib

/-!
Shallow embedding of the data-access and validation layer of the
literature-manager repository (src/src/models.py, src/src/database.py,
src/src/utils.py), together with proofs of the specified properties.

Modelling conventions:
* SQLite tables become Lean lists of row structures; a row's `created_at`
  is a `Nat` timestamp supplied by the caller (`CURRENT_TIMESTAMP` oracle),
  and `uuid.uuid4()` is an oracle string argument `freshId`.
* Each mutating operation returns `Except DBError α × DB`: the Python code
  raises before committing on every error path, so the post-state on an
  error is the input state.
* Python's stable `list.sort(key=..., reverse=True)` and SQL
  `ORDER BY ... DESC` are modelled by a stable descending insertion sort.
-/

namespace LitManager

/-! ## models.py: the four closed vocabularies -/

def VALID_SOURCE_TYPES : List String := ["paper", "webpage", "book", "video", "blog"]

def VALID_IDENTIFIER_TYPES : List String :=
  ["semantic_scholar", "arxiv", "doi", "isbn", "url"]

def VALID_STATUS_VALUES : List String := ["unread", "reading", "completed", "archived"]

def VALID_RELATION_TYPES : List String :=
  ["discusses", "introduces", "extends", "evaluates", "applies", "critiques"]

def validate_source_type (source_type : String) : Bool :=
  VALID_SOURCE_TYPES.contains source_type

def validate_identifier_type (identifier_type : String) : Bool :=
  VALID_IDENTIFIER_TYPES.contains identifier_type

def validate_status (status : String) : Bool :=
  VALID_STATUS_VALUES.contains status

def validate_relation_type (relation_type : String) : Bool :=
  VALID_RELATION_TYPES.contains relation_type

/-! ## Row types and store state (setup_database.py schema) -/

/-- One row of the `sources` table.  `identifiers` holds the JSON object as an
association list (the create path seeds exactly one key). -/
structure SourceRow where
  id : String
  title : String
  type : String
  identifiers : List (String × String)
  status : String
  created_at : Nat
  deriving Repr, DecidableEq

/-- One row of the `source_notes` table. -/
structure NoteRow where
  source_id : String
  note_title : String
  content : String
  created_at : Nat
  deriving Repr, DecidableEq

/-- One row of the `source_entity_links` table. -/
structure LinkRow where
  source_id : String
  entity_name : String
  relation_type : String
  notes : Option String
  created_at : Nat
  deriving Repr, DecidableEq

/-- The whole store.  Lists are kept in rowid (insertion) order. -/
structure DB where
  sources : List SourceRow
  notes : List NoteRow
  links : List LinkRow
  deriving Repr, DecidableEq

def emptyDB : DB := ⟨[], [], []⟩

/-- The distinct raise sites of `database.py`, as a structured error type.
In the spec's taxonomy the first four constructors are ValidationError kinds,
`sourceExists` / `noteExists` / `linkExists` are ConflictError kinds
(`sourceExists` carries the conflicting existing id, as the message
"Source already exists with ID: ..." does), `sourceNotFound` is the
NotFoundError kind, and `insertFailed` models a re-raised `sqlite3.Error`. -/
inductive DBError where
  | invalidSourceType (t : String)
  | invalidIdentifierType (t : String)
  | invalidStatus (s : String)
  | invalidRelationType (r : String)
  | sourceExists (existingId : String)
  | sourceNotFound (sourceId : String)
  | noteExists (noteTitle : String)
  | linkExists (entityName : String)
  | insertFailed (what : String)
  deriving Repr, DecidableEq

/-- Which error constructors are ValidationError kinds in the spec taxonomy. -/
def DBError.isValidation : DBError → Bool
  | .invalidSourceType _ => true
  | .invalidIdentifierType _ => true
  | .invalidStatus _ => true
  | .invalidRelationType _ => true
  | _ => false

/-! ## Stable descending sort (Python `sort(reverse=True)`, SQL ORDER BY DESC) -/

/-- Insert `x` before the first element whose key is not larger, keeping
equal-key elements in their original relative order. -/
def insertByDesc (key : α → Nat) (x : α) : List α → List α
  | [] => [x]
  | y :: ys => if key x < key y then y :: insertByDesc key x ys else x :: y :: ys

/-- Stable sort, descending by `key`. -/
def sortByDesc (key : α → Nat) (l : List α) : List α :=
  l.foldr (insertByDesc key) []

/-! ## database.py: LiteratureDatabase -/

/-- `find_source_by_identifier`: first row whose `type` matches and whose
identifiers JSON has `identifier_type` mapped to `identifier_value`
(`json_extract` yields NULL, which never compares equal, when the key is
absent). -/
def find_source_by_identifier (db : DB) (identifier_type identifier_value source_type : String) :
    Option SourceRow :=
  db.sources.find? fun r =>
    r.type == source_type && r.identifiers.lookup identifier_type == some identifier_value

/-- `add_source`: validate the two vocabularies, reject a duplicate
`(type, identifier_type, identifier_value)` identity with the existing id,
then insert a row with the fresh id, a single-entry identifiers object,
default status `unread` and the current timestamp.  A primary-key collision
on `id` surfaces as the caught-and-rewrapped `sqlite3.Error`. -/
def add_source (db : DB) (title source_type identifier_type identifier_value : String)
    (freshId : String) (now : Nat) : Except DBError String × DB :=
  if !validate_source_type source_type then
    (.error (.invalidSourceType source_type), db)
  else if !validate_identifier_type identifier_type then
    (.error (.invalidIdentifierType identifier_type), db)
  else
    match find_source_by_identifier db identifier_type identifier_value source_type with
    | some existing => (.error (.sourceExists existing.id), db)
    | none =>
      if db.sources.any (·.id == freshId) then
        (.error (.insertFailed "add source"), db)
      else
        (.ok freshId,
         { db with sources :=
             db.sources ++
               [{ id := freshId, title := title, type := source_type,
                  identifiers := [(identifier_type, identifier_value)],
                  status := "unread", created_at := now }] })

/-- View of one note as returned by `get_source_by_id`. -/
structure NoteView where
  title : String
  content : String
  created_at : Nat
  deriving Repr, DecidableEq

/-- View of one entity link as returned by `get_source_by_id`. -/
structure LinkView where
  entity_name : String
  relation_type : String
  notes : Option String
  created_at : Nat
  deriving Repr, DecidableEq

/-- The full aggregate returned by `get_source_by_id`. -/
structure SourceDetail where
  id : String
  title : String
  type : String
  identifiers : List (String × String)
  status : String
  created_at : Nat
  notes : List NoteView
  entity_links : List LinkView
  deriving Repr, DecidableEq

/-- `get_source_by_id`: the source row (first match on id), its notes ordered
by `created_at` descending, and its entity links in insertion order. -/
def get_source_by_id (db : DB) (source_id : String) : Option SourceDetail :=
  match db.sources.find? (·.id == source_id) with
  | none => none
  | some r =>
    some { id := r.id, title := r.title, type := r.type,
           identifiers := r.identifiers, status := r.status,
           created_at := r.created_at,
           notes :=
             (sortByDesc (·.created_at) (db.notes.filter (·.source_id == source_id))).map
               fun n => { title := n.note_title, content := n.content,
                          created_at := n.created_at },
           entity_links :=
             (db.links.filter (·.source_id == source_id)).map
               fun l => { entity_name := l.entity_name, relation_type := l.relation_type,
                          notes := l.notes, created_at := l.created_at } }

/-- `add_note`: require the source to exist, reject a duplicate note title for
that source, then insert. -/
def add_note (db : DB) (source_id note_title content : String) (now : Nat) :
    Except DBError Bool × DB :=
  if (db.sources.find? (·.id == source_id)).isNone then
    (.error (.sourceNotFound source_id), db)
  else if (db.notes.find? fun n => n.source_id == source_id && n.note_title == note_title).isSome then
    (.error (.noteExists note_title), db)
  else
    (.ok true,
     { db with notes := db.notes ++
         [{ source_id := source_id, note_title := note_title, content := content,
            created_at := now }] })

/-- `update_status`: validate the status, run the UPDATE over every row with
the given id, and report not-found exactly when the update affected zero
rows. -/
def update_status (db : DB) (source_id new_status : String) : Except DBError Bool × DB :=
  if !validate_status new_status then
    (.error (.invalidStatus new_status), db)
  else
    -- the UPDATE's rowcount is the number of rows whose id matches
    if (db.sources.filter (·.id == source_id)).length == 0 then
      (.error (.sourceNotFound source_id), db)
    else
      (.ok true,
       { db with sources := db.sources.map fun r =>
           if r.id == source_id then { r with status := new_status } else r })

/-- `link_to_entity`: validate the relation type, require the source to exist,
reject a duplicate `(source_id, entity_name)` pair, then insert. -/
def link_to_entity (db : DB) (source_id entity_name relation_type : String)
    (notes : Option String) (now : Nat) : Except DBError Bool × DB :=
  if !validate_relation_type relation_type then
    (.error (.invalidRelationType relation_type), db)
  else if (db.sources.find? (·.id == source_id)).isNone then
    (.error (.sourceNotFound source_id), db)
  else if (db.links.find? fun l => l.source_id == source_id && l.entity_name == entity_name).isSome then
    (.error (.linkExists entity_name), db)
  else
    (.ok true,
     { db with links := db.links ++
         [{ source_id := source_id, entity_name := entity_name,
            relation_type := relation_type, notes := notes, created_at := now }] })

/-- The lightweight projection returned by `list_sources`. -/
structure SourceSummary where
  id : String
  title : String
  type : String
  status : String
  created_at : Nat
  deriving Repr, DecidableEq

def SourceRow.toSummary (r : SourceRow) : SourceSummary :=
  { id := r.id, title := r.title, type := r.type, status := r.status,
    created_at := r.created_at }

/-- Python truthiness of an optional string argument: only a present,
non-empty string is truthy (`if source_type:`). -/
def truthy : Option String → Bool
  | some s => !(s == "")
  | none => false

/-- SQLite `LIMIT ?`: a negative limit means no limit. -/
def applyLimit (lim : Int) (l : List α) : List α :=
  if lim < 0 then l else l.take lim.toNat

/-- `list_sources`: each truthy filter argument is validated against its
vocabulary and added as an equality condition; results are ordered by
`created_at` descending and capped at `limit`. -/
def list_sources (db : DB) (source_type status : Option String) (limit : Int) :
    Except DBError (List SourceSummary) :=
  if truthy source_type && !validate_source_type (source_type.getD "") then
    .error (.invalidSourceType (source_type.getD ""))
  else if truthy status && !validate_status (status.getD "") then
    .error (.invalidStatus (status.getD ""))
  else
    .ok (applyLimit limit
      ((sortByDesc (·.created_at)
        (db.sources.filter fun r =>
          (!truthy source_type || r.type == source_type.getD "") &&
          (!truthy status || r.status == status.getD ""))).map SourceRow.toSummary))

/-- The record returned by `get_database_stats`. -/
structure Stats where
  sources_by_type : List (String × Nat)
  sources_by_status : List (String × Nat)
  total_sources : Nat
  total_notes : Nat
  total_entity_links : Nat
  deriving Repr, DecidableEq

/-- `SELECT v, COUNT(*) ... GROUP BY v`: one entry per distinct value with its
multiplicity (first-occurrence order). -/
def groupCounts (vals : List String) : List (String × Nat) :=
  vals.dedup.map fun v => (v, vals.count v)

/-- `get_database_stats`: per-type and per-status group counts plus the three
table totals, computed fresh from the store. -/
def get_database_stats (db : DB) : Stats :=
  { sources_by_type := groupCounts (db.sources.map (·.type)),
    sources_by_status := groupCounts (db.sources.map (·.status)),
    total_sources := db.sources.length,
    total_notes := db.notes.length,
    total_entity_links := db.links.length }

/-! ## utils.py: title search -/

/-- Python `str.lower()`: character-wise lowercasing. -/
def lowerS (s : String) : String := ⟨s.data.map Char.toLower⟩

/-- Python `needle in hay` on strings: contiguous-substring containment
(the empty needle is contained in everything). -/
def isSubList (n : List Char) : List Char → Bool
  | [] => n.isEmpty
  | c :: t => n.isPrefixOf (c :: t) || isSubList n t

/-- Python `str.split()` with no argument: maximal runs of non-whitespace,
empty pieces dropped.  `acc` holds the current word reversed. -/
def wordsAux : List Char → List Char → List (List Char)
  | [], acc => if acc.isEmpty then [] else [acc.reverse]
  | c :: cs, acc =>
    if c.isWhitespace then
      if acc.isEmpty then wordsAux cs [] else acc.reverse :: wordsAux cs []
    else wordsAux cs (c :: acc)

def wordsOf (l : List Char) : List (List Char) := wordsAux l []

/-- The score the search loop assigns to one source, if any: exact lowered
match 100, substring containment 50, any query word contained 25, else no
match. -/
def matchScore (queryLower : String) (s : SourceSummary) : Option Nat :=
  if queryLower == lowerS s.title then some 100
  else if isSubList queryLower.data (lowerS s.title).data then some 50
  else if (wordsOf queryLower.data).any (fun w => isSubList w (lowerS s.title).data) then some 25
  else none

/-- `search_sources_by_title`: score each source in input order, drop
non-matches, stable-sort by score descending, return the sources. -/
def search_sources_by_title (sources : List SourceSummary) (query : String) :
    List SourceSummary :=
  (sortByDesc (·.2)
    (sources.filterMap fun s => (matchScore (lowerS query) s).map fun c => (s, c))).map
    Prod.fst

/-! ## Concrete stores used to instantiate the theorems -/

def searchWitnessSources : List SourceSummary :=
  [{ id := "1", title := "Aa", type := "paper", status := "unread", created_at := 0 },
   { id := "2", title := "Bb", type := "book", status := "reading", created_at := 1 }]

def twoSourceDB : DB :=
  { sources :=
      [{ id := "id-A", title := "Paper A", type := "paper",
         identifiers := [("arxiv", "1111.1111")], status := "unread", created_at := 0 },
       { id := "id-B", title := "Paper B", type := "paper",
         identifiers := [("arxiv", "2222.2222")], status := "unread", created_at := 1 }],
    notes := [], links := [] }

/-- Store states reachable from the empty store by successful create
operations, together with how many sources, notes and entity links were
added along the way. -/
inductive Built : DB → Nat → Nat → Nat → Prop where
  | nil : Built emptyDB 0 0 0
  | addSrc {db : DB} {n m k : Nat} {title ty it iv f : String} {now : Nat}
      {i : String} {db2 : DB} :
      Built db n m k →
      add_source db title ty it iv f now = (.ok i, db2) →
      Built db2 (n + 1) m k
  | addNote {db : DB} {n m k : Nat} {sid T c : String} {now : Nat} {db2 : DB} :
      Built db n m k →
      add_note db sid T c now = (.ok true, db2) →
      Built db2 n (m + 1) k
  | addLink {db : DB} {n m k : Nat} {sid en rel : String} {lnotes : Option String}
      {now : Nat} {db2 : DB} :
      Built db n m k →
      link_to_entity db sid en rel lnotes now = (.ok true, db2) →
      Built db2 n m (k + 1)

def statsWitnessDB : DB :=
  { sources :=
      [{ id := "id-1", title := "T", type := "paper",
         identifiers := [("arxiv", "1")], status := "unread", created_at := 0 }],
    notes := [], links := [] }

/-! ## Helper lemmas about the stable descending sort -/

theorem insertByDesc_of_le (key : α → Nat) (x : α) (l : List α)
    (h : ∀ y ∈ l, key y ≤ key x) : insertByDesc key x l = x :: l := by
  cases l with
  | nil => rfl
  | cons y ys =>
    have : ¬ key x < key y := not_lt.mpr (h y (by simp))
    simp [insertByDesc, this]

theorem insertByDesc_append (key : α → Nat) (x : α) (l₁ l₂ : List α)
    (h : ∀ y ∈ l₁, key x < key y) :
    insertByDesc key x (l₁ ++ l₂) = l₁ ++ insertByDesc key x l₂ := by
  induction l₁ with
  | nil => rfl
  | cons y ys ih =>
    have hy : key x < key y := h y (by simp)
    simp only [List.cons_append, insertByDesc, hy, if_pos, List.append_eq]
    rw [ih fun z hz => h z (by simp [hz])]

theorem mem_insertByDesc (key : α → Nat) (x a : α) (l : List α) :
    a ∈ insertByDesc key x l ↔ a = x ∨ a ∈ l := by
  induction l with
  | nil => simp [insertByDesc]
  | cons y ys ih =>
    by_cases hxy : key x < key y
    · simp only [insertByDesc, hxy, if_pos, List.mem_cons, ih]
      tauto
    · simp only [insertByDesc, hxy, if_neg, not_false_iff, List.mem_cons]

theorem mem_sortByDesc (key : α → Nat) (a : α) (l : List α) :
    a ∈ sortByDesc key l ↔ a ∈ l := by
  induction l with
  | nil => simp [sortByDesc]
  | cons y ys ih =>
    simp only [sortByDesc, List.foldr_cons] at *
    rw [mem_insertByDesc, ih, List.mem_cons]

theorem pairwise_insertByDesc (key : α → Nat) (x : α) (l : List α)
    (h : l.Pairwise fun a b => key b ≤ key a) :
    (insertByDesc key x l).Pairwise fun a b => key b ≤ key a := by
  induction l with
  | nil => simp [insertByDesc]
  | cons y ys ih =>
    rcases List.pairwise_cons.mp h with ⟨hy, hys⟩
    by_cases hxy : key x < key y
    · simp only [insertByDesc, hxy, if_pos]
      refine List.pairwise_cons.mpr ⟨?_, ih hys⟩
      intro z hz
      rcases (mem_insertByDesc key x z ys).mp hz with rfl | hz
      · exact le_of_lt hxy
      · exact hy z hz
    · simp only [insertByDesc, hxy, if_neg, not_false_iff]
      refine List.pairwise_cons.mpr ⟨?_, h⟩
      intro z hz
      rcases List.mem_cons.mp hz with rfl | hz
      · exact not_lt.mp hxy
      · exact le_trans (hy z hz) (not_lt.mp hxy)

theorem pairwise_sortByDesc (key : α → Nat) (l : List α) :
    (sortByDesc key l).Pairwise fun a b => key b ≤ key a := by
  induction l with
  | nil => simp [sortByDesc]
  | cons y ys ih => exact pairwise_insertByDesc key y _ ih

/-- On a list whose scores all lie in `{100, 50, 25}`, the stable descending
sort is exactly the 100-block, then the 50-block, then the 25-block, each in
original order. -/
theorem sortByDesc_three (l : List (α × Nat))
    (h : ∀ x ∈ l, x.2 = 100 ∨ x.2 = 50 ∨ x.2 = 25) :
    sortByDesc (·.2) l =
      l.filter (·.2 == 100) ++ l.filter (·.2 == 50) ++ l.filter (·.2 == 25) := by
  induction l with
  | nil => rfl
  | cons x xs ih =>
    have hxs : ∀ y ∈ xs, y.2 = 100 ∨ y.2 = 50 ∨ y.2 = 25 :=
      fun y hy => h y (by simp [hy])
    have hsort : sortByDesc (·.2) (x :: xs) = insertByDesc (·.2) x (sortByDesc (·.2) xs) := rfl
    rw [hsort, ih hxs]
    have m100 : ∀ y ∈ xs.filter (·.2 == 100), y.2 = 100 := by
      intro y hy
      simpa using (List.mem_filter.mp hy).2
    have m50 : ∀ y ∈ xs.filter (·.2 == 50), y.2 = 50 := by
      intro y hy
      simpa using (List.mem_filter.mp hy).2
    have m25 : ∀ y ∈ xs.filter (·.2 == 25), y.2 = 25 := by
      intro y hy
      simpa using (List.mem_filter.mp hy).2
    rcases h x (by simp) with hx | hx | hx
    · rw [insertByDesc_of_le]
      · simp [List.filter_cons, hx]
      · intro y hy
        rcases List.mem_append.mp hy with hy' | hy'
        · rcases List.mem_append.mp hy' with hy'' | hy''
          · rw [m100 y hy'', hx]
          · rw [m50 y hy'', hx]; omega
        · rw [m25 y hy', hx]; omega
    · rw [List.append_assoc, insertByDesc_append, insertByDesc_of_le]
      · simp [List.filter_cons, hx, List.append_assoc]
      · intro y hy
        rcases List.mem_append.mp hy with hy' | hy'
        · rw [m50 y hy', hx]
        · rw [m25 y hy', hx]; omega
      · intro y hy
        rw [m100 y hy, hx]; omega
    · rw [insertByDesc_append, insertByDesc_of_le]
      · simp [List.filter_cons, hx]
      · intro y hy
        rw [m25 y hy, hx]
      · intro y hy
        rcases List.mem_append.mp hy with hy' | hy'
        · rw [m100 y hy', hx]; omega
        · rw [m50 y hy', hx]; omega

/-! ## Helper lemmas about the search scoring -/

theorem matchScore_cases (q : String) (s : SourceSummary) :
    matchScore q s = none ∨ matchScore q s = some 100 ∨
      matchScore q s = some 50 ∨ matchScore q s = some 25 := by
  unfold matchScore
  split_ifs
  all_goals simp

theorem matchScore_eq_100 (q : String) (s : SourceSummary) :
    (matchScore q s == some 100) = (q == lowerS s.title) := by
  unfold matchScore
  split_ifs
  all_goals simp_all

theorem matchScore_eq_50 (q : String) (s : SourceSummary) :
    (matchScore q s == some 50) =
      (!(q == lowerS s.title) && isSubList q.data (lowerS s.title).data) := by
  unfold matchScore
  split_ifs
  all_goals simp_all

theorem matchScore_eq_25 (q : String) (s : SourceSummary) :
    (matchScore q s == some 25) =
      (!(q == lowerS s.title) && !isSubList q.data (lowerS s.title).data &&
        (wordsOf q.data).any fun w => isSubList w (lowerS s.title).data) := by
  unfold matchScore
  split_ifs
  all_goals simp_all

theorem filterMap_score (q : String) (sources : List SourceSummary) (k : Nat) :
    ((sources.filterMap fun s => (matchScore q s).map fun c => (s, c)).filter
        (fun x => x.2 == k)).map Prod.fst
      = sources.filter fun s => matchScore q s == some k := by
  induction sources with
  | nil => rfl
  | cons s ss ih =>
    cases h : matchScore q s with
    | none => simp [List.filterMap_cons, h, List.filter_cons, ih]
    | some c =>
      by_cases hc : c = k
      · subst hc
        simp [List.filterMap_cons, h, List.filter_cons, ih]
      · simp [List.filterMap_cons, h, List.filter_cons, ih, hc]

theorem scored_scores (q : String) (sources : List SourceSummary) :
    ∀ x ∈ (sources.filterMap fun s => (matchScore q s).map fun c => (s, c)),
      x.2 = 100 ∨ x.2 = 50 ∨ x.2 = 25 := by
  intro x hx
  rcases List.mem_filterMap.mp hx with ⟨s, _, hmap⟩
  rcases matchScore_cases q s with h | h | h | h <;> rw [h] at hmap <;>
    simp_all <;> simp [← hmap]

/-- The search result is the exact-match block, then the substring block, then
the word-match block, each in original input order. -/
theorem search_tiers (sources : List SourceSummary) (query : String) :
    search_sources_by_title sources query =
      (sources.filter fun s => matchScore (lowerS query) s == some 100) ++
      (sources.filter fun s => matchScore (lowerS query) s == some 50) ++
      (sources.filter fun s => matchScore (lowerS query) s == some 25) := by
  unfold search_sources_by_title
  rw [sortByDesc_three _ (scored_scores (lowerS query) sources)]
  simp only [List.map_append]
  rw [filterMap_score, filterMap_score, filterMap_score]

theorem lowerS_empty : lowerS "" = "" := by decide

theorem str_empty_data : ("" : String).data = [] := rfl

theorem lowerS_eq_empty_iff (t : String) : lowerS t = "" ↔ t = "" := by
  cases t with
  | mk data =>
    simp [lowerS, String.ext_iff]

theorem isSubList_nil (l : List Char) : isSubList [] l = true := by
  cases l <;> simp [isSubList, List.isPrefixOf]

theorem wordsOf_nil : wordsOf [] = [] := rfl

theorem empty_beq_lower (s : String) : ("" == lowerS s) = (s == "") := by
  by_cases h : s = ""
  · subst h
    simp [lowerS_empty]
  · have h' : ¬ lowerS s = "" := fun hc => h ((lowerS_eq_empty_iff s).mp hc)
    have h'' : ¬ ("" : String) = lowerS s := fun hc => h' hc.symm
    simp [beq_iff_eq, h, h'']

/-- C7: the title search returns exactly the sources whose lowercased title
equals the lowercased query, contains it as a substring, or contains one of
the individual query words; the result is the exact-match block, then the
substring block, then the word block, each block keeping original input
order, and non-matches are absent. -/
theorem search_ranking_correct (sources : List SourceSummary) (query : String) :
    search_sources_by_title sources query =
      (sources.filter fun s => lowerS query == lowerS s.title) ++
      (sources.filter fun s =>
        !(lowerS query == lowerS s.title) &&
          isSubList (lowerS query).data (lowerS s.title).data) ++
      (sources.filter fun s =>
        !(lowerS query == lowerS s.title) &&
          !isSubList (lowerS query).data (lowerS s.title).data &&
          ((wordsOf (lowerS query).data).any fun w => isSubList w (lowerS s.title).data)) ∧
    ∀ s, s ∈ search_sources_by_title sources query ↔
      s ∈ sources ∧ (lowerS query = lowerS s.title ∨
        isSubList (lowerS query).data (lowerS s.title).data = true ∨
        ((wordsOf (lowerS query).data).any fun w => isSubList w (lowerS s.title).data) = true) := by
  have h1 := search_tiers sources query
  constructor
  · rw [h1]
    congr 1
    · congr 1
      · exact List.filter_congr fun s _ => matchScore_eq_100 _ s
      · exact List.filter_congr fun s _ => matchScore_eq_50 _ s
    · exact List.filter_congr fun s _ => matchScore_eq_25 _ s
  · intro s
    rw [h1]
    simp only [List.mem_append, List.mem_filter, matchScore_eq_100, matchScore_eq_50,
      matchScore_eq_25]
    by_cases hA : lowerS query = lowerS s.title <;>
      by_cases hB : isSubList (lowerS query).data (lowerS s.title).data = true <;>
      by_cases hC :
        ((wordsOf (lowerS query).data).any fun w => isSubList w (lowerS s.title).data) = true <;>
      simp_all

/-- C10: for the empty query every non-empty-titled source lands in the
substring tier, so the whole input comes back in original order, while an
empty-titled source lands in the exact tier and is ranked first. -/
theorem search_empty_query (sources : List SourceSummary) :
    search_sources_by_title sources "" =
      (sources.filter fun s => s.title == "") ++ (sources.filter fun s => !(s.title == "")) ∧
    ((∀ s ∈ sources, s.title ≠ "") → search_sources_by_title sources "" = sources) := by
  have h1 := search_tiers sources ""
  rw [lowerS_empty] at h1
  have e100 : ∀ s : SourceSummary, (matchScore "" s == some 100) = (s.title == "") := by
    intro s
    rw [matchScore_eq_100, empty_beq_lower]
  have e50 : ∀ s : SourceSummary, (matchScore "" s == some 50) = !(s.title == "") := by
    intro s
    rw [matchScore_eq_50, empty_beq_lower, str_empty_data, isSubList_nil, Bool.and_true]
  have e25 : ∀ s : SourceSummary, (matchScore "" s == some 25) = false := by
    intro s
    rw [matchScore_eq_25, str_empty_data, wordsOf_nil]
    simp
  have hmain : search_sources_by_title sources "" =
      (sources.filter fun s => s.title == "") ++ (sources.filter fun s => !(s.title == "")) := by
    rw [h1, List.filter_congr fun s _ => e100 s, List.filter_congr fun s _ => e50 s,
      List.filter_congr fun s _ => e25 s]
    simp
  refine ⟨hmain, fun h => ?_⟩
  rw [hmain]
  have hnil : (sources.filter fun s => s.title == "") = [] := by
    rw [List.filter_eq_nil_iff]
    intro s hs
    simpa using h s hs
  have hall : (sources.filter fun s => !(s.title == "")) = sources := by
    rw [List.filter_eq_self]
    intro s hs
    simpa using h s hs
  rw [hnil, hall, List.nil_append]

theorem search_empty_query_witness :
    search_sources_by_title searchWitnessSources "" = searchWitnessSources :=
  (search_empty_query searchWitnessSources).2 (by decide)

/-! ## Theorems about the data-access layer -/

/-- C3: every mutating operation that reports an error leaves the store
exactly as it was; no error path commits a partial row. -/
theorem mutators_atomic (db : DB)
    (title source_type identifier_type identifier_value freshId : String)
    (sid ntitle ncontent st ename rel : String) (lnotes : Option String) (now : Nat) :
    ((∃ e, (add_source db title source_type identifier_type identifier_value freshId now).1
        = .error e) →
      (add_source db title source_type identifier_type identifier_value freshId now).2 = db) ∧
    ((∃ e, (add_note db sid ntitle ncontent now).1 = .error e) →
      (add_note db sid ntitle ncontent now).2 = db) ∧
    ((∃ e, (update_status db sid st).1 = .error e) →
      (update_status db sid st).2 = db) ∧
    ((∃ e, (link_to_entity db sid ename rel lnotes now).1 = .error e) →
      (link_to_entity db sid ename rel lnotes now).2 = db) := by
  refine ⟨fun h => ?_, fun h => ?_, fun h => ?_, fun h => ?_⟩ <;>
    obtain ⟨e, he⟩ := h
  · unfold add_source at he ⊢
    repeat' split
    all_goals try rfl
    all_goals simp_all
  · unfold add_note at he ⊢
    repeat' split
    all_goals try rfl
    all_goals simp_all
  · unfold update_status at he ⊢
    repeat' split
    all_goals try rfl
    all_goals simp_all
  · unfold link_to_entity at he ⊢
    repeat' split
    all_goals try rfl
    all_goals simp_all

theorem mutators_atomic_witness :
    (add_source emptyDB "T" "bogus" "arxiv" "1" "id-1" 0).2 = emptyDB ∧
    (add_note emptyDB "nosuch" "N" "c" 0).2 = emptyDB ∧
    (update_status emptyDB "nosuch" "unread").2 = emptyDB ∧
    (link_to_entity emptyDB "nosuch" "entity" "discusses" none 0).2 = emptyDB :=
  have h := mutators_atomic emptyDB "T" "bogus" "arxiv" "1" "id-1" "nosuch" "N" "c"
    "unread" "entity" "discusses" none 0
  ⟨h.1 ⟨.invalidSourceType "bogus", rfl⟩,
   h.2.1 ⟨.sourceNotFound "nosuch", rfl⟩,
   h.2.2.1 ⟨.sourceNotFound "nosuch", rfl⟩,
   h.2.2.2 ⟨.sourceNotFound "nosuch", rfl⟩⟩

/-- C1: with valid vocabularies and no pre-existing source of the same
identity, the first `add_source` succeeds; repeating it with the same
`(type, identifier_type, identifier_value)` fails with the conflict error
carrying the first call's id, leaves the store unchanged, and the store then
holds exactly one source with that identity. -/
theorem add_source_duplicate_rejected (db : DB)
    (title source_type identifier_type identifier_value f1 f2 : String) (n1 n2 : Nat)
    (hty : validate_source_type source_type = true)
    (hit : validate_identifier_type identifier_type = true)
    (hnone : find_source_by_identifier db identifier_type identifier_value source_type = none)
    (hfresh : db.sources.any (·.id == f1) = false) :
    ∃ db1,
      add_source db title source_type identifier_type identifier_value f1 n1 = (.ok f1, db1) ∧
      add_source db1 title source_type identifier_type identifier_value f2 n2
        = (.error (.sourceExists f1), db1) ∧
      (db1.sources.filter fun r => r.type == source_type &&
          r.identifiers.lookup identifier_type == some identifier_value).length = 1 := by
  have h1 : add_source db title source_type identifier_type identifier_value f1 n1
      = (.ok f1,
         { db with sources := db.sources ++
             [{ id := f1, title := title, type := source_type,
                identifiers := [(identifier_type, identifier_value)],
                status := "unread", created_at := n1 }] }) := by
    unfold add_source
    rw [hty, hit, hnone, hfresh]
    rfl
  have hpred : (fun r : SourceRow => r.type == source_type &&
      r.identifiers.lookup identifier_type == some identifier_value)
        { id := f1, title := title, type := source_type,
          identifiers := [(identifier_type, identifier_value)],
          status := "unread", created_at := n1 } = true := by
    simp [List.lookup]
  have hfindnil : db.sources.find? (fun r => r.type == source_type &&
      r.identifiers.lookup identifier_type == some identifier_value) = none := hnone
  refine ⟨_, h1, ?_, ?_⟩
  · have h2 : find_source_by_identifier
        { db with sources := db.sources ++
            [{ id := f1, title := title, type := source_type,
               identifiers := [(identifier_type, identifier_value)],
               status := "unread", created_at := n1 }] }
          identifier_type identifier_value source_type
        = some { id := f1, title := title, type := source_type,
                 identifiers := [(identifier_type, identifier_value)],
                 status := "unread", created_at := n1 } := by
      unfold find_source_by_identifier
      rw [List.find?_append, hfindnil]
      simp [List.find?, hpred]
    unfold add_source
    rw [hty, hit, h2]
    rfl
  · simp only [List.filter_append]
    rw [List.filter_eq_nil_iff.mpr fun r hr hp => by
      simp [List.find?_eq_none.mp hfindnil r hr hp]]
    simp [hpred]

theorem add_source_duplicate_rejected_witness :
    ∃ db1,
      add_source emptyDB "T" "paper" "arxiv" "1706.03762" "id-1" 0 = (.ok "id-1", db1) ∧
      add_source db1 "T" "paper" "arxiv" "1706.03762" "id-2" 1
        = (.error (.sourceExists "id-1"), db1) ∧
      (db1.sources.filter fun r => r.type == "paper" &&
          r.identifiers.lookup "arxiv" == some "1706.03762").length = 1 :=
  add_source_duplicate_rejected emptyDB "T" "paper" "arxiv" "1706.03762" "id-1" "id-2" 0 1
    (by decide) (by decide) rfl rfl

/-- C2: reading back a freshly added source by the returned id yields exactly
the input title, type, the single-entry identifiers mapping, default status
`unread`, and empty note and entity-link lists. -/
theorem add_source_roundtrip (db : DB)
    (title source_type identifier_type identifier_value f : String) (now : Nat)
    (hty : validate_source_type source_type = true)
    (hit : validate_identifier_type identifier_type = true)
    (hnone : find_source_by_identifier db identifier_type identifier_value source_type = none)
    (hfresh : ∀ r ∈ db.sources, r.id ≠ f)
    (hwfN : ∀ nt ∈ db.notes, ∃ r ∈ db.sources, r.id = nt.source_id)
    (hwfL : ∀ lk ∈ db.links, ∃ r ∈ db.sources, r.id = lk.source_id) :
    (add_source db title source_type identifier_type identifier_value f now).1 = .ok f ∧
    get_source_by_id (add_source db title source_type identifier_type identifier_value f now).2 f
      = some { id := f, title := title, type := source_type,
               identifiers := [(identifier_type, identifier_value)],
               status := "unread", created_at := now,
               notes := [], entity_links := [] } := by
  have hfreshb : (db.sources.any (·.id == f)) = false :=
    List.any_eq_false.mpr fun r hr => by simp [hfresh r hr]
  have h1 : add_source db title source_type identifier_type identifier_value f now
      = (.ok f,
         { db with sources := db.sources ++
             [{ id := f, title := title, type := source_type,
                identifiers := [(identifier_type, identifier_value)],
                status := "unread", created_at := now }] }) := by
    unfold add_source
    rw [hty, hit, hnone, hfreshb]
    rfl
  have hfind2 : ((db.sources ++
      [({ id := f, title := title, type := source_type,
          identifiers := [(identifier_type, identifier_value)],
          status := "unread", created_at := now } : SourceRow)]).find? fun r => r.id == f)
      = some { id := f, title := title, type := source_type,
               identifiers := [(identifier_type, identifier_value)],
               status := "unread", created_at := now } := by
    rw [List.find?_append, List.find?_eq_none.mpr fun r hr => by simp [hfresh r hr]]
    simp [List.find?]
  have hnotes : (db.notes.filter fun n => n.source_id == f) = [] := by
    rw [List.filter_eq_nil_iff]
    intro nt hnt
    obtain ⟨r, hr, hre⟩ := hwfN nt hnt
    have hne : nt.source_id ≠ f := hre ▸ hfresh r hr
    simp [hne]
  have hlinks : (db.links.filter fun l => l.source_id == f) = [] := by
    rw [List.filter_eq_nil_iff]
    intro lk hlk
    obtain ⟨r, hr, hre⟩ := hwfL lk hlk
    have hne : lk.source_id ≠ f := hre ▸ hfresh r hr
    simp [hne]
  refine ⟨by rw [h1], ?_⟩
  simp only [h1]
  simp only [get_source_by_id]
  rw [hfind2, hnotes, hlinks]
  rfl

theorem add_source_roundtrip_witness :
    (add_source emptyDB "Deep Learning" "book" "isbn" "978-0262035613" "id-7" 5).1
      = .ok "id-7" ∧
    get_source_by_id (add_source emptyDB "Deep Learning" "book" "isbn" "978-0262035613"
        "id-7" 5).2 "id-7"
      = some { id := "id-7", title := "Deep Learning", type := "book",
               identifiers := [("isbn", "978-0262035613")],
               status := "unread", created_at := 5, notes := [], entity_links := [] } :=
  add_source_roundtrip emptyDB "Deep Learning" "book" "isbn" "978-0262035613" "id-7" 5
    (by decide) (by decide) rfl (by simp [emptyDB]) (by simp [emptyDB]) (by simp [emptyDB])

/-- Successful `add_note`: the source exists and no note of that title exists
for it, so the row is appended. -/
theorem add_note_ok (db : DB) (sid T c : String) (n : Nat)
    (hs : ∃ r ∈ db.sources, r.id = sid)
    (hT : ∀ nt ∈ db.notes, ¬(nt.source_id = sid ∧ nt.note_title = T)) :
    add_note db sid T c n = (.ok true, { db with notes := db.notes ++
        [{ source_id := sid, note_title := T, content := c, created_at := n }] }) := by
  unfold add_note
  obtain ⟨r, hr, hre⟩ := hs
  have h1 : (db.sources.find? fun r => r.id == sid).isNone = false := by
    have hsome : (db.sources.find? fun r => r.id == sid).isSome = true :=
      List.find?_isSome.mpr ⟨r, hr, by simp [hre]⟩
    cases hx : db.sources.find? fun r => r.id == sid <;> simp_all
  have h2 : (db.notes.find? fun nt => nt.source_id == sid && nt.note_title == T) = none :=
    List.find?_eq_none.mpr fun nt hnt hbad => hT nt hnt (by
      simp only [Bool.and_eq_true, beq_iff_eq] at hbad
      exact hbad)
  rw [h1, h2]
  rfl

/-- Conflicting `add_note`: the source exists but a note of that title already
does, so the call fails with the conflict error and changes nothing. -/
theorem add_note_conflict (db : DB) (sid T c : String) (n : Nat)
    (hs : ∃ r ∈ db.sources, r.id = sid)
    (hT : ∃ nt ∈ db.notes, nt.source_id = sid ∧ nt.note_title = T) :
    add_note db sid T c n = (.error (.noteExists T), db) := by
  unfold add_note
  obtain ⟨r, hr, hre⟩ := hs
  have h1 : (db.sources.find? fun r => r.id == sid).isNone = false := by
    have hsome : (db.sources.find? fun r => r.id == sid).isSome = true :=
      List.find?_isSome.mpr ⟨r, hr, by simp [hre]⟩
    cases hx : db.sources.find? fun r => r.id == sid <;> simp_all
  obtain ⟨nt, hnt, hnt1, hnt2⟩ := hT
  have h2 : (db.notes.find? fun nt => nt.source_id == sid && nt.note_title == T).isSome
      = true :=
    List.find?_isSome.mpr ⟨nt, hnt, by simp [hnt1, hnt2]⟩
  rw [h1, h2]
  rfl

/-- C4: adding a note titled `T` to source `A` succeeds, adding one titled `T`
to a different source `B` also succeeds, and adding a second `T` note to `A`
fails with the conflict error: note-title uniqueness is per source, not
global. -/
theorem note_title_unique_per_source (db : DB) (A B T c c2 c3 : String) (n1 n2 n3 : Nat)
    (hA : ∃ r ∈ db.sources, r.id = A)
    (hB : ∃ r ∈ db.sources, r.id = B)
    (hAB : A ≠ B)
    (hTA : ∀ nt ∈ db.notes, ¬(nt.source_id = A ∧ nt.note_title = T))
    (hTB : ∀ nt ∈ db.notes, ¬(nt.source_id = B ∧ nt.note_title = T)) :
    ∃ db1 db2,
      add_note db A T c n1 = (.ok true, db1) ∧
      add_note db1 B T c2 n2 = (.ok true, db2) ∧
      add_note db2 A T c3 n3 = (.error (.noteExists T), db2) := by
  have e1 := add_note_ok db A T c n1 hA hTA
  refine ⟨{ db with notes := db.notes ++
              [{ source_id := A, note_title := T, content := c, created_at := n1 }] },
          { db with notes := (db.notes ++
              [{ source_id := A, note_title := T, content := c, created_at := n1 }]) ++
              [{ source_id := B, note_title := T, content := c2, created_at := n2 }] },
          e1, ?_, ?_⟩
  · refine add_note_ok _ B T c2 n2 hB ?_
    intro nt hnt
    rcases List.mem_append.mp hnt with h | h
    · exact hTB nt h
    · rcases List.mem_singleton.mp h with rfl
      intro hcon
      exact hAB (hcon.1 ▸ rfl)
  · refine add_note_conflict _ A T c3 n3 hA ?_
    exact ⟨{ source_id := A, note_title := T, content := c, created_at := n1 },
      by simp, rfl, rfl⟩

theorem note_title_unique_per_source_witness :
    ∃ db1 db2,
      add_note twoSourceDB "id-A" "Summary" "ca" 2 = (.ok true, db1) ∧
      add_note db1 "id-B" "Summary" "cb" 3 = (.ok true, db2) ∧
      add_note db2 "id-A" "Summary" "cc" 4
        = (.error (.noteExists "Summary"), db2) :=
  note_title_unique_per_source twoSourceDB "id-A" "id-B" "Summary" "ca" "cb" "cc" 2 3 4
    (by decide) (by decide) (by decide) (by decide) (by decide)

/-- Successful `update_status`: valid status and at least one row affected. -/
theorem update_status_ok (db : DB) (sid st : String)
    (hv : validate_status st = true)
    (hne : (db.sources.filter (·.id == sid)).length ≠ 0) :
    update_status db sid st = (.ok true,
      { db with sources := db.sources.map fun r =>
          if r.id == sid then { r with status := st } else r }) := by
  unfold update_status
  rw [hv]
  have hz : ((db.sources.filter (·.id == sid)).length == 0) = false := by
    simp only [beq_eq_false_iff_ne, ne_eq]
    exact hne
  rw [hz]
  rfl

/-- The status-update map leaves the set of rows matching a given id
unchanged in number. -/
theorem filter_id_map_status (l : List SourceRow) (sid st : String) :
    ((l.map fun r => if r.id == sid then { r with status := st } else r).filter
        (·.id == sid)).length = (l.filter (·.id == sid)).length := by
  rw [← List.countP_eq_length_filter, ← List.countP_eq_length_filter, List.countP_map]
  refine List.countP_congr fun r _ => ?_
  by_cases h : r.id = sid <;> simp [h]

/-- C5: `update_status` raises the validation error exactly for statuses
outside the vocabulary; for a valid status it reports not-found exactly when
the update affects zero rows; and any two successive valid updates on an
existing source both succeed, a subsequent read showing the second status. -/
theorem update_status_spec (db : DB) (sid : String) :
    (∀ st, (∃ e, (update_status db sid st).1 = .error e ∧ e.isValidation = true) ↔
      validate_status st = false) ∧
    (∀ st, validate_status st = true →
      ((update_status db sid st).1 = .error (.sourceNotFound sid) ↔
        (db.sources.filter (·.id == sid)).length = 0)) ∧
    (∀ s1 s2, validate_status s1 = true → validate_status s2 = true →
      (db.sources.filter (·.id == sid)).length ≠ 0 →
      ∃ db1 db2,
        update_status db sid s1 = (.ok true, db1) ∧
        update_status db1 sid s2 = (.ok true, db2) ∧
        (get_source_by_id db2 sid).map SourceDetail.status = some s2) := by
  refine ⟨fun st => ?_, fun st hv => ?_, fun s1 s2 hv1 hv2 hne => ?_⟩
  · by_cases hv : validate_status st = true
    · refine iff_of_false ?_ (by simp [hv])
      rintro ⟨e, he, hval⟩
      unfold update_status at he
      rw [hv] at he
      by_cases hz : ((db.sources.filter (·.id == sid)).length == 0) = true
      · rw [if_neg (by simp), if_pos hz] at he
        simp only [] at he
        injection he with he2
        rw [← he2] at hval
        simp [DBError.isValidation] at hval
      · rw [if_neg (by simp), if_neg (by simpa using hz)] at he
        simp at he
    · have hvf : validate_status st = false := by simpa using hv
      refine iff_of_true ⟨.invalidStatus st, ?_, rfl⟩ hvf
      unfold update_status
      rw [hvf]
      rfl
  · unfold update_status
    rw [hv]
    by_cases hz : (db.sources.filter (·.id == sid)).length = 0
    · have : ((db.sources.filter (·.id == sid)).length == 0) = true := by
        simp [hz]
      rw [this]
      simpa using hz
    · have : ((db.sources.filter (·.id == sid)).length == 0) = false := by
        simp only [beq_eq_false_iff_ne, ne_eq]
        exact hz
      rw [this]
      simpa using hz
  · have e1 := update_status_ok db sid s1 hv1 hne
    have hne1 : ((({ db with sources := db.sources.map fun r =>
        if r.id == sid then { r with status := s1 } else r } : DB)).sources.filter
          (·.id == sid)).length ≠ 0 := by
      rw [show ({ db with sources := db.sources.map fun r =>
          if r.id == sid then { r with status := s1 } else r } : DB).sources
        = db.sources.map fun r => if r.id == sid then { r with status := s1 } else r
        from rfl, filter_id_map_status]
      exact hne
    have e2 := update_status_ok _ sid s2 hv2 hne1
    refine ⟨_, _, e1, e2, ?_⟩
    obtain ⟨x, hx⟩ := List.length_pos_iff_exists_mem.mp (Nat.pos_of_ne_zero hne)
    obtain ⟨hxl, hxp⟩ := List.mem_filter.mp hx
    have hfsome : ∃ r, db.sources.find? (·.id == sid) = some r := by
      have : (db.sources.find? (·.id == sid)).isSome = true :=
        List.find?_isSome.mpr ⟨x, hxl, hxp⟩
      exact Option.isSome_iff_exists.mp this
    obtain ⟨r, hr⟩ := hfsome
    have hrp : (r.id == sid) = true := by simpa using List.find?_some hr
    unfold get_source_by_id
    have hfind : ((db.sources.map fun r => if r.id == sid then { r with status := s1 } else r).map
          fun r => if r.id == sid then { r with status := s2 } else r).find? (·.id == sid)
        = some (if (if (r.id == sid) = true then { r with status := s1 } else r).id == sid
            then { (if (r.id == sid) = true then { r with status := s1 } else r) with
                   status := s2 }
            else (if (r.id == sid) = true then { r with status := s1 } else r)) := by
      rw [List.find?_map, List.find?_map]
      have hcong : (((fun x : SourceRow => x.id == sid) ∘
            fun r => if r.id == sid then { r with status := s2 } else r) ∘
            fun r => if r.id == sid then { r with status := s1 } else r)
          = fun x : SourceRow => x.id == sid := by
        funext z
        by_cases h : z.id == sid <;> simp [Function.comp, h]
      rw [hcong, hr]
      rfl
    rw [hfind]
    simp [hrp]

theorem update_status_spec_witness :
    ∃ db1 db2,
      update_status twoSourceDB "id-A" "reading" = (.ok true, db1) ∧
      update_status db1 "id-A" "completed" = (.ok true, db2) ∧
      (get_source_by_id db2 "id-A").map SourceDetail.status = some "completed" :=
  (update_status_spec twoSourceDB "id-A").2.2 "reading" "completed"
    (by decide) (by decide) (by decide)

/-- C6 counterexample: an empty-string filter value is outside the source-type
vocabulary, yet `list_sources` does not raise a validation error for it — the
truthiness check skips the empty string entirely and returns the unfiltered
listing. -/
theorem list_sources_empty_filter_counterexample :
    validate_source_type "" = false ∧
    list_sources twoSourceDB (some "") none 50
      = .ok [{ id := "id-B", title := "Paper B", type := "paper", status := "unread",
               created_at := 1 },
             { id := "id-A", title := "Paper A", type := "paper", status := "unread",
               created_at := 0 }] := by
  constructor
  · decide
  · rfl

/-- C6 (amended): `list_sources` raises the validation error exactly for a
supplied non-empty filter value outside its vocabulary (an empty-string
filter is treated as absent, like None); otherwise it returns the sources
matching every supplied non-empty equality filter, ordered by `created_at`
descending, at most `limit` of them, and omits a matching source only when
the limit is already reached. -/
theorem list_sources_spec (db : DB) (t s : Option String) (lim : Int) (hlim : 0 ≤ lim) :
    (∀ v, t = some v → v ≠ "" → validate_source_type v = false →
      list_sources db t s lim = .error (.invalidSourceType v)) ∧
    (∀ v, (t = none ∨ t = some "" ∨ ∃ tv, t = some tv ∧ validate_source_type tv = true) →
      s = some v → v ≠ "" → validate_status v = false →
      list_sources db t s lim = .error (.invalidStatus v)) ∧
    ((t = none ∨ t = some "" ∨ ∃ tv, t = some tv ∧ validate_source_type tv = true) →
     (s = none ∨ s = some "" ∨ ∃ sv, s = some sv ∧ validate_status sv = true) →
     ∃ out, list_sources db t s lim = .ok out ∧
       out.length ≤ lim.toNat ∧
       out.Pairwise (fun a b => b.created_at ≤ a.created_at) ∧
       (∀ x ∈ out, ∃ r ∈ db.sources, x = r.toSummary ∧
         (∀ v, t = some v → v ≠ "" → r.type = v) ∧
         (∀ v, s = some v → v ≠ "" → r.status = v)) ∧
       (out.length < lim.toNat →
         ∀ r ∈ db.sources,
           (∀ v, t = some v → v ≠ "" → r.type = v) →
           (∀ v, s = some v → v ≠ "" → r.status = v) →
           r.toSummary ∈ out)) := by
  refine ⟨?_, ?_, ?_⟩
  · rintro v rfl hve hvb
    simp [list_sources, truthy, hve, hvb]
  · rintro v ht rfl hve hvb
    rcases ht with rfl | rfl | ⟨tv, rfl, htv⟩
    · simp [list_sources, truthy, hve, hvb]
    · simp [list_sources, truthy, hve, hvb]
    · simp [list_sources, truthy, hve, hvb, htv]
  · intro ht hs
    have hc1 : (truthy t && !validate_source_type (t.getD "")) = false := by
      rcases ht with rfl | rfl | ⟨tv, rfl, htv⟩
      · simp [truthy]
      · simp [truthy]
      · simp [truthy, htv]
    have hc2 : (truthy s && !validate_status (s.getD "")) = false := by
      rcases hs with rfl | rfl | ⟨sv, rfl, hsv⟩
      · simp [truthy]
      · simp [truthy]
      · simp [truthy, hsv]
    have heval : list_sources db t s lim
        = .ok ((((db.sources.filter fun r =>
            (!truthy t || r.type == t.getD "") &&
            (!truthy s || r.status == s.getD "")) |> sortByDesc (·.created_at)).map
              SourceRow.toSummary).take lim.toNat) := by
      unfold list_sources
      rw [hc1, hc2]
      unfold applyLimit
      rw [if_neg (not_lt.mpr hlim)]
      rfl
    refine ⟨_, heval, ?_, ?_, ?_, ?_⟩
    · rw [List.length_take]
      exact min_le_left _ _
    · refine List.Pairwise.sublist (List.take_sublist _ _) ?_
      refine List.pairwise_map.mpr ?_
      exact pairwise_sortByDesc _ _
    · intro x hx
      obtain ⟨r, hrs, rfl⟩ := List.mem_map.mp (List.mem_of_mem_take hx)
      rw [mem_sortByDesc] at hrs
      obtain ⟨hrl, hrp⟩ := List.mem_filter.mp hrs
      refine ⟨r, hrl, rfl, ?_, ?_⟩
      · rintro v rfl hvne
        have : truthy (some v) = true := by simp [truthy, hvne]
        rw [this] at hrp
        simpa using (Bool.and_elim_left hrp)
      · rintro v rfl hvne
        have : truthy (some v) = true := by simp [truthy, hvne]
        rw [this] at hrp
        simpa using (Bool.and_elim_right hrp)
    · intro hlt r hrl hmt hms
      set l2 := ((db.sources.filter fun r =>
          (!truthy t || r.type == t.getD "") &&
          (!truthy s || r.status == s.getD "")) |> sortByDesc (·.created_at)).map
            SourceRow.toSummary with hl2
      have hlen : l2.length < lim.toNat := by
        by_contra hge
        rw [List.length_take] at hlt
        omega
      have htake : l2.take lim.toNat = l2 := List.take_of_length_le (Nat.le_of_lt hlen)
      rw [htake]
      have hP : ((!truthy t || r.type == t.getD "") &&
          (!truthy s || r.status == s.getD "")) = true := by
        have h1 : (!truthy t || r.type == t.getD "") = true := by
          rcases ht with rfl | rfl | ⟨tv, rfl, htv⟩
          · simp [truthy]
          · simp [truthy]
          · by_cases htv0 : tv = ""
            · simp [truthy, htv0]
            · simp [truthy, htv0, hmt tv rfl htv0]
        have h2 : (!truthy s || r.status == s.getD "") = true := by
          rcases hs with rfl | rfl | ⟨sv, rfl, hsv⟩
          · simp [truthy]
          · simp [truthy]
          · by_cases hsv0 : sv = ""
            · simp [truthy, hsv0]
            · simp [truthy, hsv0, hms sv rfl hsv0]
        rw [h1, h2]
        rfl
      exact List.mem_map_of_mem _ ((mem_sortByDesc _ _ _).mpr (List.mem_filter.mpr ⟨hrl, hP⟩))

theorem list_sources_spec_witness :
    ∃ out, list_sources twoSourceDB (some "paper") none 50 = .ok out ∧
      out.length ≤ (50 : Int).toNat ∧
      out.Pairwise (fun a b => b.created_at ≤ a.created_at) ∧
      (∀ x ∈ out, ∃ r ∈ twoSourceDB.sources, x = r.toSummary ∧
        (∀ v, (some "paper" : Option String) = some v → v ≠ "" → r.type = v) ∧
        (∀ v, (none : Option String) = some v → v ≠ "" → r.status = v)) ∧
      (out.length < (50 : Int).toNat →
        ∀ r ∈ twoSourceDB.sources,
          (∀ v, (some "paper" : Option String) = some v → v ≠ "" → r.type = v) →
          (∀ v, (none : Option String) = some v → v ≠ "" → r.status = v) →
          r.toSummary ∈ out) :=
  (list_sources_spec twoSourceDB (some "paper") none 50 (by decide)).2.2
    (Or.inr (Or.inr ⟨"paper", rfl, by decide⟩)) (Or.inl rfl)

/-- A successful `add_source` appends exactly one source row and leaves the
other tables untouched. -/
theorem add_source_ok_shape {db : DB} {title ty it iv f : String} {now : Nat}
    {i : String} {db2 : DB}
    (h : add_source db title ty it iv f now = (.ok i, db2)) :
    db2.sources.length = db.sources.length + 1 ∧ db2.notes = db.notes ∧
      db2.links = db.links := by
  unfold add_source at h
  repeat' split at h
  all_goals try simp_all
  obtain ⟨-, rfl⟩ := h
  simp

/-- A successful `add_note` appends exactly one note row and leaves the other
tables untouched. -/
theorem add_note_ok_shape {db : DB} {sid T c : String} {now : Nat} {db2 : DB}
    (h : add_note db sid T c now = (.ok true, db2)) :
    db2.notes.length = db.notes.length + 1 ∧ db2.sources = db.sources ∧
      db2.links = db.links := by
  unfold add_note at h
  repeat' split at h
  all_goals try simp_all
  obtain rfl := h
  simp

/-- A successful `link_to_entity` appends exactly one link row and leaves the
other tables untouched. -/
theorem link_to_entity_ok_shape {db : DB} {sid en rel : String}
    {lnotes : Option String} {now : Nat} {db2 : DB}
    (h : link_to_entity db sid en rel lnotes now = (.ok true, db2)) :
    db2.links.length = db.links.length + 1 ∧ db2.sources = db.sources ∧
      db2.notes = db.notes := by
  unfold link_to_entity at h
  repeat' split at h
  all_goals try simp_all
  obtain rfl := h
  simp

/-- C8: on any store built by N source, M note and K link insertions in any
order, the statistics report exactly those totals, the per-type and
per-status counts each sum to N, and the mappings contain exactly the
observed types and statuses. -/
theorem stats_consistent (db : DB) (n m k : Nat) (h : Built db n m k) :
    (get_database_stats db).total_sources = n ∧
    (get_database_stats db).total_notes = m ∧
    (get_database_stats db).total_entity_links = k ∧
    ((get_database_stats db).sources_by_type.map Prod.snd).sum = n ∧
    ((get_database_stats db).sources_by_status.map Prod.snd).sum = n ∧
    (∀ ty, (∃ c, (ty, c) ∈ (get_database_stats db).sources_by_type) ↔
      ty ∈ db.sources.map (·.type)) ∧
    (∀ st, (∃ c, (st, c) ∈ (get_database_stats db).sources_by_status) ↔
      st ∈ db.sources.map (·.status)) := by
  have htot : db.sources.length = n ∧ db.notes.length = m ∧ db.links.length = k := by
    induction h with
    | nil => exact ⟨rfl, rfl, rfl⟩
    | addSrc hb he ih =>
      obtain ⟨h1, h2, h3⟩ := add_source_ok_shape he
      exact ⟨by rw [h1, ih.1], by rw [h2, ih.2.1], by rw [h3, ih.2.2]⟩
    | addNote hb he ih =>
      obtain ⟨h1, h2, h3⟩ := add_note_ok_shape he
      exact ⟨by rw [h2, ih.1], by rw [h1, ih.2.1], by rw [h3, ih.2.2]⟩
    | addLink hb he ih =>
      obtain ⟨h1, h2, h3⟩ := link_to_entity_ok_shape he
      exact ⟨by rw [h2, ih.1], by rw [h3, ih.2.1], by rw [h1, ih.2.2]⟩
  have hsum : ∀ vals : List String, ((groupCounts vals).map Prod.snd).sum = vals.length := by
    intro vals
    unfold groupCounts
    rw [List.map_map]
    simpa using List.sum_map_count_dedup_eq_length vals
  have hkeys : ∀ (vals : List String) (x : String),
      (∃ c, (x, c) ∈ groupCounts vals) ↔ x ∈ vals := by
    intro vals x
    unfold groupCounts
    constructor
    · rintro ⟨c, hc⟩
      obtain ⟨v, hv, he⟩ := List.mem_map.mp hc
      rw [Prod.mk.injEq] at he
      obtain ⟨h1, -⟩ := he
      exact List.mem_dedup.mp (h1 ▸ hv)
    · intro hx
      exact ⟨vals.count x,
        List.mem_map_of_mem (fun v => (v, vals.count v)) (List.mem_dedup.mpr hx)⟩
  refine ⟨htot.1, htot.2.1, htot.2.2, ?_, ?_, fun ty => hkeys _ ty, fun st => hkeys _ st⟩
  · show ((groupCounts (db.sources.map (·.type))).map Prod.snd).sum = n
    rw [hsum, List.length_map, htot.1]
  · show ((groupCounts (db.sources.map (·.status))).map Prod.snd).sum = n
    rw [hsum, List.length_map, htot.1]

theorem stats_consistent_witness :
    (get_database_stats statsWitnessDB).total_sources = 1 ∧
    (get_database_stats statsWitnessDB).total_notes = 0 ∧
    (get_database_stats statsWitnessDB).total_entity_links = 0 :=
  have hb : Built statsWitnessDB 1 0 0 :=
    @Built.addSrc emptyDB 0 0 0 "T" "paper" "arxiv" "1" "id-1" 0 "id-1" statsWitnessDB
      Built.nil (by rfl)
  have h := stats_consistent statsWitnessDB 1 0 0 hb
  ⟨h.1, h.2.1, h.2.2.1⟩

/-- C9 counterexample: the database layer accepts an empty title — the call
succeeds with no validation error and the store then holds a source whose
title is the empty string. -/
theorem add_source_empty_title_counterexample :
    (add_source emptyDB "" "paper" "arxiv" "1706.03762" "id-1" 0).1 = .ok "id-1" ∧
    (add_source emptyDB "" "paper" "arxiv" "1706.03762" "id-1" 0).2.sources
      = [{ id := "id-1", title := "", type := "paper",
           identifiers := [("arxiv", "1706.03762")], status := "unread",
           created_at := 0 }] :=
  ⟨rfl, rfl⟩

/-- C9 (amended): `add_source` performs no title validation at the
data-access layer: with valid vocabularies, no duplicate identity and a
fresh id, a call with the empty title succeeds and persists a source whose
title is the empty string. -/
theorem add_source_empty_title_accepted (db : DB) (ty it iv f : String) (now : Nat)
    (hty : validate_source_type ty = true)
    (hit : validate_identifier_type it = true)
    (hnone : find_source_by_identifier db it iv ty = none)
    (hfresh : db.sources.any (·.id == f) = false) :
    (add_source db "" ty it iv f now).1 = .ok f ∧
    (add_source db "" ty it iv f now).2.sources
      = db.sources ++ [{ id := f, title := "", type := ty, identifiers := [(it, iv)],
                         status := "unread", created_at := now }] := by
  have h1 : add_source db "" ty it iv f now
      = (.ok f, { db with sources := db.sources ++
          [{ id := f, title := "", type := ty, identifiers := [(it, iv)],
             status := "unread", created_at := now }] }) := by
    unfold add_source
    rw [hty, hit, hnone, hfresh]
    rfl
  exact ⟨by rw [h1], by rw [h1]⟩

theorem add_source_empty_title_accepted_witness :
    (add_source emptyDB "" "book" "isbn" "978-0262035613" "id-9" 3).1 = .ok "id-9" ∧
    (add_source emptyDB "" "book" "isbn" "978-0262035613" "id-9" 3).2.sources
      = [{ id := "id-9", title := "", type := "book",
           identifiers := [("isbn", "978-0262035613")], status := "unread",
           created_at := 3 }] :=
  have h := add_source_empty_title_accepted emptyDB "book" "isbn" "978-0262035613"
    "id-9" 3 (by decide) (by decide) rfl rfl
  ⟨h.1, h.2⟩

end LitManager
